import Mathlib

/-!
# Verification of the VoiceAssistant core pipeline (src/app.py)

Shallow embedding of the capture → transcribe → post-process → inject →
cleanup pipeline of `src/app.py`.  Python floats are modelled as rationals
(`ℚ`), machine int16 as `Int` with explicit two's-complement wrapping,
filesystem and OS state as explicit records, and each fallible or stateful
Python method as a total Lean function threading that state.
-/

namespace VoiceAssistant

/-! ## Replacement rules (src/app.py lines 1274–1281)

The Python code reads each rule from the config as a dict with keys
`"match"` and `"replace"`; the data model also carries a case-insensitive
flag, which the code never reads.  Substitution is
`re.sub(match, replace, text, flags=re.IGNORECASE)`, i.e. every rule is
applied case-insensitively; rules with an empty `match` are skipped
(`if match:`), and an invalid pattern is skipped by the
`except re.error: pass`.  Patterns in the claims are literal strings, so
substitution is modelled for literal patterns: leftmost, non-overlapping,
global replacement. -/

structure ReplacementRule where
  matchStr : String
  replaceStr : String
  caseInsensitive : Bool
  deriving Repr, DecidableEq

/-- Case-insensitive character comparison, as `re.IGNORECASE` does for
ASCII letters. -/
def charEqCI (a b : Char) : Bool := a.toLower == b.toLower

/-- Does `pat` occur at the head of `ts`, comparing case-insensitively? -/
def isPrefixCI : List Char → List Char → Bool
  | [], _ => true
  | _ :: _, [] => false
  | p :: ps, t :: ts => charEqCI p t && isPrefixCI ps ts

/-- Global, leftmost, non-overlapping substitution of the literal pattern
`pat` by `repl`, matching case-insensitively — the behaviour of
`re.sub(pat, repl, text, flags=re.IGNORECASE)` for a literal pattern.
Structural recursion on a fuel argument (each step consumes at least one
character, so fuel = length of the text is always enough); fuel keeps the
definition kernel-reducible. -/
def subCIAux (pat repl : List Char) : Nat → List Char → List Char
  | _, [] => []
  | 0, l => l
  | fuel + 1, t :: ts =>
    if isPrefixCI pat (t :: ts) then
      repl ++ subCIAux pat repl fuel (List.drop (pat.length - 1) ts)
    else
      t :: subCIAux pat repl fuel ts

def subCI (pat repl text : String) : String :=
  if pat.isEmpty then text
  else ⟨subCIAux pat.data repl.data text.data.length text.data⟩

/-- Case-sensitive variant (what a rule *without* the case-insensitive flag
would do under the spec's reading; the code never behaves this way). -/
def subCSAux (pat repl : List Char) : Nat → List Char → List Char
  | _, [] => []
  | 0, l => l
  | fuel + 1, t :: ts =>
    if List.isPrefixOf pat (t :: ts) then
      repl ++ subCSAux pat repl fuel (List.drop (pat.length - 1) ts)
    else
      t :: subCSAux pat repl fuel ts

def subCS (pat repl text : String) : String :=
  if pat.isEmpty then text
  else ⟨subCSAux pat.data repl.data text.data.length text.data⟩

/-- One iteration of the replacement loop body (lines 1275–1281): skip the
rule when its `match` is empty, otherwise substitute globally with
`re.IGNORECASE` — the rule's own case flag is never consulted. -/
def applyRule (text : String) (r : ReplacementRule) : String :=
  if r.matchStr.isEmpty then text
  else subCI r.matchStr r.replaceStr text

/-- The whole replacement loop (lines 1274–1281): rules applied in list
order, each rule rewriting the text produced by the previous one. -/
def applyReplacements (text : String) (rules : List ReplacementRule) : String :=
  rules.foldl applyRule text

/-! ## PCM conversion in `AudioRecorder.stop` (src/app.py lines 201–228)

Captured blocks are numpy float arrays; samples are modelled as `ℚ`.
Line 218 is `audio_int16 = (audio * 32767).astype(np.int16)`: the float is
multiplied by 32767, truncated toward zero, and cast to int16 — numpy's
float→int16 cast reduces the truncated value modulo 2^16 into
[-32768, 32767] (two's-complement wraparound); there is **no** clamping in
the code. -/

/-- Truncation toward zero of a rational, as the C float→integer cast. -/
def truncRat (q : ℚ) : Int := if 0 ≤ q then ⌊q⌋ else ⌈q⌉

/-- Reduce an integer into the int16 range by two's-complement wraparound,
as numpy's `astype(np.int16)` does to an out-of-range value. -/
def wrapInt16 (t : Int) : Int :=
  let m := t % 65536
  if m < 32768 then m else m - 65536

/-- `(x * 32767).astype(np.int16)` for one sample: scale, truncate toward
zero, wrap into int16.  This is line 218 as written (no clamping). -/
def sampleToInt16 (x : ℚ) : Int := wrapInt16 (truncRat (x * 32767))

/-- The conversion the spec describes instead: scale, truncate, then clamp
to [-32768, 32767].  Not what the code does; stated for comparison. -/
def sampleToInt16Clamped (x : ℚ) : Int :=
  max (-32768) (min 32767 (truncRat (x * 32767)))

/-! ## AudioRecorder state (src/app.py lines 158–228)

`sd.InputStream` opening may fail; that environment outcome is passed in as
`openSucceeds`.  The capture callback appends a block and updates the RMS
level; `stop` tears the stream down and, when frames were captured,
concatenates them and converts to int16 PCM. -/

structure RecorderState where
  is_recording : Bool
  frames : List (List ℚ)
  hasStream : Bool
  current_level : ℚ
  deriving Repr, DecidableEq

/-- `AudioRecorder.__init__` (lines 159–167). -/
def RecorderState.init : RecorderState :=
  { is_recording := false, frames := [], hasStream := false, current_level := 0 }

/-- `AudioRecorder.start` (lines 182–199).  Returns unchanged if already
recording; otherwise sets the active flag, clears frames and level, and
tries to open the stream.  On failure (the `except` branch, line 197–199)
the error is logged and `is_recording` is reset to `False`; no exception
escapes. -/
def RecorderState.start (s : RecorderState) (openSucceeds : Bool) : RecorderState :=
  if s.is_recording then s
  else
    let s1 := { s with is_recording := true, frames := [], current_level := 0 }
    if openSucceeds then { s1 with hasStream := true }
    else { s1 with is_recording := false }

/-- The capture callback `_callback` (lines 169–175): when recording,
append the block and store its RMS level. -/
def RecorderState.callback (s : RecorderState) (block : List ℚ) (rms : ℚ) :
    RecorderState :=
  if s.is_recording then
    { s with frames := s.frames ++ [block], current_level := rms }
  else s

/-- `AudioRecorder.stop` (lines 201–228).  Returns the new state and
`none` when not recording or no frames were captured, otherwise `some pcm`
with the int16 sample list written to the working WAV file. -/
def RecorderState.stop (s : RecorderState) : RecorderState × Option (List Int) :=
  if ¬ s.is_recording then (s, none)
  else
    let s1 := { s with is_recording := false, current_level := 0, hasStream := false }
    if s1.frames = [] then (s1, none)
    else (s1, some ((s1.frames.flatten).map sampleToInt16))

/-! ## Controller (`VoiceAssistantApp`) recording state and job dispatch
(src/app.py lines 1200–1241)

`_is_recording` is the controller's own flag; `inFlightJobs` counts the
daemon threads created at line 1239 that have not yet returned from
`_transcribe`.  The code has no queue: line 1239 unconditionally creates a
fresh `threading.Thread` whenever `stop` yielded a file. -/

structure AppState where
  app_is_recording : Bool
  recorder : RecorderState
  inFlightJobs : Nat
  prev_hwnd : Option Int
  deriving Repr, DecidableEq

/-- `_start_recording` (lines 1207–1222): set `self._is_recording = True`,
remember the foreground window (`None` when the OS call fails), then call
`recorder.start`, which swallows open failures itself — so execution
continues (overlay shown, button set) and `_is_recording` is **not** reset
when the device cannot be opened. -/
def AppState.start_recording (a : AppState) (foreground : Option Int)
    (openSucceeds : Bool) : AppState :=
  let a1 := { a with app_is_recording := true, prev_hwnd := foreground }
  { a1 with recorder := a1.recorder.start openSucceeds }

/-- `_stop_recording` (lines 1224–1241): clear `_is_recording`, stop the
recorder, and if a file resulted, start a **new** `_transcribe` thread
(line 1239) regardless of how many are already running. -/
def AppState.stop_recording (a : AppState) : AppState :=
  let a1 := { a with app_is_recording := false }
  let (rec1, audio) := a1.recorder.stop
  match audio with
  | some _ => { a1 with recorder := rec1, inFlightJobs := a1.inFlightJobs + 1 }
  | none => { a1 with recorder := rec1 }

/-- A `_transcribe` thread returning (its `finally` block done). -/
def AppState.job_finished (a : AppState) : AppState :=
  { a with inFlightJobs := a.inFlightJobs - 1 }

/-- `_toggle_recording` (lines 1200–1205). -/
def AppState.toggle_recording (a : AppState) (foreground : Option Int)
    (openSucceeds : Bool) : AppState :=
  if a.app_is_recording then a.stop_recording
  else a.start_recording foreground openSucceeds

/-- Initial application state. -/
def AppState.init : AppState :=
  { app_is_recording := false, recorder := RecorderState.init,
    inFlightJobs := 0, prev_hwnd := none }

/-- Events driving the dispatch model: a toggle (with the environment
outcomes it needs) or a background job finishing. -/
inductive AppEvent where
  | toggle (foreground : Option Int) (openSucceeds : Bool) (blocks : List (List ℚ))
  | jobDone
  deriving Repr, DecidableEq

/-- One event step.  A toggle that starts recording is followed by the
capture callbacks delivering `blocks` (RMS values irrelevant here, taken
as 0); a toggle that stops recording ignores `blocks`. -/
def AppState.step (a : AppState) : AppEvent → AppState
  | .toggle fg ok blocks =>
    if a.app_is_recording then a.stop_recording
    else
      let a1 := a.start_recording fg ok
      { a1 with recorder := blocks.foldl (fun r b => r.callback b 0) a1.recorder }
  | .jobDone => a.job_finished

/-- Run a sequence of events from a state. -/
def AppState.run (a : AppState) (evs : List AppEvent) : AppState :=
  evs.foldl AppState.step a

/-! ## AI post-processing step (src/app.py lines 1283–1316)

`api_key = CFG.get("ai_api_key", "").strip()`; the guarded block runs only
under `if text and api_key and ai_enabled`.  Inside, one chat-completions
network request is made; its outcome is passed in as `AIOutcome`.  The
result's `.strip()` is kept only when non-empty; every exception is caught
by the `except` at line 1311.  The second component counts network calls
made by the step. -/

inductive AIOutcome where
  | success (polished : String)
  | failure (err : String)
  deriving Repr, DecidableEq

/-- Python whitespace as `str.strip()` sees it. -/
def isSpaceChar (c : Char) : Bool :=
  c == ' ' || c == '\t' || c == '\n' || c == '\r' || c == '\x0b' || c == '\x0c'

/-- Python's `str.strip()`: remove leading and trailing whitespace. -/
def pyStrip (s : String) : String :=
  ⟨((s.data.dropWhile isSpaceChar).reverse.dropWhile isSpaceChar).reverse⟩

def aiPostProcess (text : String) (ai_enabled : Bool) (apiKeyRaw : String)
    (outcome : AIOutcome) : String × Nat :=
  let api_key := pyStrip apiKeyRaw
  if !text.isEmpty && !api_key.isEmpty && ai_enabled then
    match outcome with
    | .success polished0 =>
      let polished := pyStrip polished0
      if !polished.isEmpty then (polished, 1) else (text, 1)
    | .failure _ => (text, 1)
  else (text, 0)

/-! ## Retention (src/app.py lines 1119–1150)

The managed recordings directory is modelled as a list of files with a
last-modified time (seconds) and whether the name matches the `*.wav`
glob; `dirExists` models `rec_path and os.path.isdir(rec_path)`. -/

structure AudioFile where
  mtime : Int
  isWav : Bool
  deriving Repr, DecidableEq

/-- `_cleanup_old_recordings` (lines 1130–1150): no-op when
`retention_days <= 0` or the directory is unset/missing; otherwise delete
every `*.wav` file whose mtime is strictly below
`now - days * 86400`. -/
def cleanup_old_recordings (days : Int) (dirExists : Bool)
    (files : List AudioFile) (now : Int) : List AudioFile :=
  if days ≤ 0 then files
  else if !dirExists then files
  else files.filter (fun f => !(f.isWav && decide (f.mtime < now - days * 86400)))

/-- `_cleanup_audio_file` (lines 1119–1128), run in `_transcribe`'s
`finally`: when `retention_days <= 0` delete the ephemeral working file
(first component `true`) and leave the directory alone; otherwise keep the
working file and sweep the directory. -/
def cleanup_audio_file (days : Int) (dirExists : Bool)
    (files : List AudioFile) (now : Int) : Bool × List AudioFile :=
  if days ≤ 0 then (true, files)
  else (false, cleanup_old_recordings days dirExists files now)

/-! ## Output injection (src/app.py lines 1320–1350)

Runs only under `if text and CFG.get("auto_paste", True)`.  Reads the old
clipboard into `old_clip` (line 1325), overwrites the clipboard with the
new text (line 1326), best-effort restores focus to `prev_hwnd`, and sends
Ctrl+V.  The restore `pyperclip.copy(old_clip)` is commented out
(line 1350), so `old_clip` is read and then discarded — returned here as
the second component to make that read explicit. -/

structure OSState where
  clipboard : String
  foreground : Option Int
  deriving Repr, DecidableEq

def injectText (text : String) (auto_paste : Bool) (prev_hwnd : Option Int)
    (os : OSState) : OSState × Option String :=
  if !text.isEmpty && auto_paste then
    let old_clip := os.clipboard
    let os1 := { os with clipboard := text }
    let os2 := match prev_hwnd with
      | some h => { os1 with foreground := some h }
      | none => os1
    (os2, some old_clip)
  else (os, none)

/-! ## Helper evaluation lemmas -/

lemma sampleToInt16_eval_101 : sampleToInt16 (101 / 100) = -32442 := by
  rw [sampleToInt16, truncRat, if_pos (by norm_num)]
  norm_num [wrapInt16]

lemma sampleToInt16Clamped_eval_101 : sampleToInt16Clamped (101 / 100) = 32767 := by
  rw [sampleToInt16Clamped, truncRat, if_pos (by norm_num)]
  norm_num

/-! ## Theorems for the claims -/

/-- C1 counterexample: `stop()` does **not** clamp.  A single captured
block holding the sample 1.01 is converted to −32442, a wrapped-around
negative value, not to the clamped 32767 the claim asserts. -/
theorem stop_no_clamp_counterexample :
    (RecorderState.stop
        { is_recording := true, frames := [[101 / 100]],
          hasStream := true, current_level := 0 }).2 = some [-32442] ∧
    (RecorderState.stop
        { is_recording := true, frames := [[101 / 100]],
          hasStream := true, current_level := 0 }).2 ≠ some [32767] ∧
    (-32442 : Int) < 0 := by
  have h : (RecorderState.stop
      { is_recording := true, frames := [[101 / 100]],
        hasStream := true, current_level := 0 }).2 = some [-32442] := by
    rw [RecorderState.stop]
    simp [sampleToInt16_eval_101]
  exact ⟨h, by rw [h]; simp, by norm_num⟩

/-- C1 amended: for every non-empty captured frame sequence, `stop()`
converts the concatenated samples by scaling by 32767, truncating toward
zero, and wrapping modulo 2^16 into the int16 range — with no clamping —
so the sample 1.01 yields −32442 where the clamped conversion would have
yielded 32767. -/
theorem stop_converts_by_wrapping (s : RecorderState)
    (hrec : s.is_recording = true) (hne : s.frames ≠ []) :
    (s.stop).2
        = some ((s.frames.flatten).map (fun x => wrapInt16 (truncRat (x * 32767)))) ∧
    sampleToInt16 (101 / 100) = -32442 ∧
    sampleToInt16Clamped (101 / 100) = 32767 := by
  refine ⟨?_, sampleToInt16_eval_101, sampleToInt16Clamped_eval_101⟩
  rw [RecorderState.stop]
  simp only [hrec, hne, not_true_eq_false, if_false, if_neg hne]
  rfl

/-- Witness for `stop_converts_by_wrapping` at a concrete recording
state. -/
theorem stop_converts_by_wrapping_witness :
    ({ is_recording := true, frames := [[101 / 100]], hasStream := true,
       current_level := 0 } : RecorderState).is_recording = true ∧
    ({ is_recording := true, frames := [[101 / 100]], hasStream := true,
       current_level := 0 } : RecorderState).frames ≠ [] ∧
    ((({ is_recording := true, frames := [[101 / 100]], hasStream := true,
         current_level := 0 } : RecorderState).stop).2
        = some (((([[101 / 100]] : List (List ℚ)).flatten).map
            (fun x => wrapInt16 (truncRat (x * 32767))))) ∧
      sampleToInt16 (101 / 100) = -32442 ∧
      sampleToInt16Clamped (101 / 100) = 32767) :=
  ⟨rfl, by simp,
    stop_converts_by_wrapping
      { is_recording := true, frames := [[101 / 100]], hasStream := true,
        current_level := 0 } rfl (by simp)⟩

/-- C2 counterexample: starting from the fully idle state, a start in
which the device cannot be opened leaves the recorder's active flag false,
but the controller's `_is_recording` flag is **true**, so the controller's
recording state is not Idle afterwards, contrary to the claim. -/
theorem start_failure_controller_not_idle_counterexample :
    ((AppState.init).start_recording none false).recorder.is_recording = false ∧
    ((AppState.init).start_recording none false).app_is_recording = true := by
  constructor <;> rfl

/-- C2 amended: when the input device cannot be opened, `start` raises no
exception past its boundary (it is a total state update) and the
recorder's active flag is false afterwards — but the controller's
`_is_recording` flag is set to true by the failed start, so the
controller's recording state is Recording, not the unchanged Idle. -/
theorem start_failure_recorder_idle_controller_set (a : AppState)
    (fg : Option Int) (h : a.recorder.is_recording = false) :
    ((a.start_recording fg false).recorder.is_recording = false) ∧
    ((a.start_recording fg false).app_is_recording = true) := by
  constructor
  · simp [AppState.start_recording, RecorderState.start, h]
  · rfl

/-- Witness for `start_failure_recorder_idle_controller_set` at the
initial state. -/
theorem start_failure_recorder_idle_controller_set_witness :
    (AppState.init).recorder.is_recording = false ∧
    ((((AppState.init).start_recording none false).recorder.is_recording = false) ∧
      (((AppState.init).start_recording none false).app_is_recording = true)) :=
  ⟨rfl, start_failure_recorder_idle_controller_set AppState.init none rfl⟩

/-- C5: replacement rules are applied sequentially in list order, each
rule's output feeding the next; in particular the rule list
[a→b, b→c] applied to "a" yields "c" (chained, not simultaneous
substitution). -/
theorem replacements_chain_sequentially :
    (∀ (text : String) (r : ReplacementRule) (rs : List ReplacementRule),
        applyReplacements text (r :: rs) = applyReplacements (applyRule text r) rs) ∧
    applyReplacements "a"
        [{ matchStr := "a", replaceStr := "b", caseInsensitive := false },
         { matchStr := "b", replaceStr := "c", caseInsensitive := false }] = "c" := by
  exact ⟨fun _ _ _ => rfl, by decide⟩

/-- C6 counterexample: a rule whose case-insensitive flag is **unset**
still matches case-insensitively — applied to "A", the rule a→b
substitutes and yields "b", while genuine case-sensitive substitution
would have left "A" unchanged.  This refutes the claim that a rule
without the flag matches case-sensitively. -/
theorem case_flag_ignored_counterexample :
    applyReplacements "A"
        [{ matchStr := "a", replaceStr := "b", caseInsensitive := false }] = "b" ∧
    subCS "a" "b" "A" = "A" ∧
    ("b" : String) ≠ "A" := by
  refine ⟨by decide, by decide, by decide⟩

/-- C6 amended: every rule's pattern is substituted case-insensitively
regardless of the rule's case-insensitive flag — the flag is never
consulted (`re.IGNORECASE` is passed unconditionally), so flipping it
never changes the result, and every non-empty-pattern rule behaves as the
case-insensitive substitution. -/
theorem replacements_always_case_insensitive :
    (∀ (text : String) (r : ReplacementRule) (b : Bool),
        applyRule text r
          = applyRule text { r with caseInsensitive := b }) ∧
    (∀ (text : String) (r : ReplacementRule), r.matchStr.isEmpty = false →
        applyRule text r = subCI r.matchStr r.replaceStr text) := by
  constructor
  · intro text r b
    rfl
  · intro text r h
    rw [applyRule, if_neg (by simp [h])]

/-- Witness for `replacements_always_case_insensitive` at the rule a→b
with the flag unset, applied to "A". -/
theorem replacements_always_case_insensitive_witness :
    (applyRule "A" { matchStr := "a", replaceStr := "b", caseInsensitive := false }
      = applyRule "A" { matchStr := "a", replaceStr := "b", caseInsensitive := true }) ∧
    (("a" : String).isEmpty = false ∧
      applyRule "A" { matchStr := "a", replaceStr := "b", caseInsensitive := false }
        = subCI "a" "b" "A") :=
  ⟨replacements_always_case_insensitive.1 "A"
      { matchStr := "a", replaceStr := "b", caseInsensitive := false } true,
   by decide,
   replacements_always_case_insensitive.2 "A"
      { matchStr := "a", replaceStr := "b", caseInsensitive := false } (by decide)⟩

/-- C10: a replacement rule whose match pattern is the empty string is
skipped entirely: the text is unchanged by it and the remaining rules in
the chain are still applied. -/
theorem empty_pattern_rule_skipped (text replaceStr : String) (b : Bool)
    (rest : List ReplacementRule) :
    applyReplacements text
        ({ matchStr := "", replaceStr := replaceStr, caseInsensitive := b } :: rest)
      = applyReplacements text rest := by
  rfl

/-- C3: whenever `ai_enabled` is false or the API key is the empty
string, the AI-correction step performs zero network calls and returns
the replacement-processed text unchanged, regardless of the other flag,
the text, or what the network would have answered. -/
theorem ai_skipped_when_disabled_or_no_key (text apiKey : String)
    (ai_enabled : Bool) (outcome : AIOutcome)
    (h : ai_enabled = false ∨ apiKey = "") :
    aiPostProcess text ai_enabled apiKey outcome = (text, 0) := by
  rcases h with h | h
  · subst h
    simp [aiPostProcess]
  · subst h
    have htrim : (pyStrip "").isEmpty = true := by decide
    simp [aiPostProcess, htrim]

/-- Witness for `ai_skipped_when_disabled_or_no_key` with AI disabled, a
non-empty key and text, and a network that would have answered. -/
theorem ai_skipped_when_disabled_or_no_key_witness :
    (false = false ∨ ("sk-key" : String) = "") ∧
    aiPostProcess "hello" false "sk-key" (AIOutcome.success "HELLO") = ("hello", 0) :=
  ⟨Or.inl rfl,
   ai_skipped_when_disabled_or_no_key "hello" "sk-key" false
     (AIOutcome.success "HELLO") (Or.inl rfl)⟩

/-- C4: a file survives the sweep iff it is not (retention enabled ∧ a
`*.wav` file ∧ strictly older than `now − days·86400`); so for
`days > 0` exactly the strictly-older wav files are deleted and all
others preserved, and for `days ≤ 0` the sweep deletes nothing.
Moreover for `days ≤ 0` the cleanup after a pipeline run still deletes
the ephemeral working file while leaving the directory untouched. -/
theorem retention_policy (days : Int) (dirExists : Bool)
    (files : List AudioFile) (now : Int) (f : AudioFile) :
    (f ∈ cleanup_old_recordings days true files now ↔
      f ∈ files ∧ ¬(0 < days ∧ f.isWav = true ∧ f.mtime < now - days * 86400)) ∧
    (days ≤ 0 → cleanup_audio_file days dirExists files now = (true, files)) := by
  constructor
  · rw [cleanup_old_recordings]
    by_cases hd : days ≤ 0
    · rw [if_pos hd]
      have : ¬ 0 < days := not_lt.mpr hd
      simp [this]
    · rw [if_neg hd, if_neg (show ¬((!true : Bool) = true) by decide)]
      have hpos : 0 < days := lt_of_not_le hd
      constructor
      · intro hmem
        rw [List.mem_filter] at hmem
        refine ⟨hmem.1, ?_⟩
        rintro ⟨-, hw, hm⟩
        have hpred := hmem.2
        simp [hw, hm] at hpred
      · rintro ⟨hmem, hn⟩
        rw [List.mem_filter]
        refine ⟨hmem, ?_⟩
        by_cases hw : f.isWav = true
        · have hm : ¬ f.mtime < now - days * 86400 := fun hm => hn ⟨hpos, hw, hm⟩
          simp [hw, hm]
        · rw [Bool.not_eq_true] at hw
          simp [hw]
  · intro hd
    rw [cleanup_audio_file, if_pos hd]

/-- Witness for `retention_policy` with retention disabled (`days = 0`):
an old wav file is kept by the sweep and the working file is deleted. -/
theorem retention_policy_witness :
    ((⟨0, true⟩ : AudioFile) ∈ cleanup_old_recordings 0 true [⟨0, true⟩] 604800 ↔
      (⟨0, true⟩ : AudioFile) ∈ [(⟨0, true⟩ : AudioFile)] ∧
        ¬((0 : Int) < 0 ∧ (⟨0, true⟩ : AudioFile).isWav = true ∧
            (⟨0, true⟩ : AudioFile).mtime < 604800 - 0 * 86400)) ∧
    ((0 : Int) ≤ 0 ∧
      cleanup_audio_file 0 true [⟨0, true⟩] 604800 = (true, [⟨0, true⟩])) :=
  ⟨(retention_policy 0 true [⟨0, true⟩] 604800 ⟨0, true⟩).1,
   le_refl 0,
   (retention_policy 0 true [⟨0, true⟩] 604800 ⟨0, true⟩).2 (le_refl 0)⟩

/-- C7: whenever the AI-correction call fails for any reason — any
exception (auth, network, timeout) or an empty response — the step
returns the pre-AI replacement-processed text unchanged; the step is a
total function, so no exception propagates to the pipeline. -/
theorem ai_failure_returns_pre_ai_text (text apiKey : String)
    (ai_enabled : Bool) (outcome : AIOutcome)
    (h : (∃ e, outcome = AIOutcome.failure e) ∨
         (∃ p, outcome = AIOutcome.success p ∧ pyStrip p = "")) :
    (aiPostProcess text ai_enabled apiKey outcome).1 = text := by
  rcases h with ⟨e, he⟩ | ⟨p, hp, hemp⟩
  · subst he
    by_cases hc : (!text.isEmpty && !(pyStrip apiKey).isEmpty && ai_enabled) = true
    · simp [aiPostProcess, hc]
    · simp [aiPostProcess, hc]
  · subst hp
    have htrim : (pyStrip p).isEmpty = true := by
      rw [String.isEmpty_iff]
      exact hemp
    by_cases hc : (!text.isEmpty && !(pyStrip apiKey).isEmpty && ai_enabled) = true
    · simp [aiPostProcess, hc, htrim]
    · simp [aiPostProcess, hc]

/-- Witness for `ai_failure_returns_pre_ai_text` on a simulated timeout
with AI fully enabled. -/
theorem ai_failure_returns_pre_ai_text_witness :
    ((∃ e, AIOutcome.failure "timeout" = AIOutcome.failure e) ∨
      (∃ p, AIOutcome.failure "timeout" = AIOutcome.success p ∧ pyStrip p = "")) ∧
    (aiPostProcess "hello" true "sk-key" (AIOutcome.failure "timeout")).1 = "hello" :=
  ⟨Or.inl ⟨"timeout", rfl⟩,
   ai_failure_returns_pre_ai_text "hello" "sk-key" true
     (AIOutcome.failure "timeout") (Or.inl ⟨"timeout", rfl⟩)⟩

/-- C8 counterexample: pipeline jobs are **not** serialized.  Stopping a
second recording while the first job is still running yields two jobs in
flight: the four-toggle trace start, stop, start, stop (with audio
captured in each recording and no job finishing in between) reaches a
state with 2 in-flight jobs, violating the claimed bound of at most 1. -/
theorem pipeline_jobs_not_serialized_counterexample :
    (AppState.run AppState.init
        [AppEvent.toggle none true [[0]], AppEvent.toggle none true [],
         AppEvent.toggle none true [[0]], AppEvent.toggle none true []]).inFlightJobs = 2 ∧
    ¬(2 ≤ 1) := by
  exact ⟨rfl, by decide⟩

/-- C8 amended: each stop of a recording that captured audio spawns a new
background `_transcribe` thread unconditionally — the number of in-flight
jobs grows by one at every such stop regardless of how many jobs are
already running; there is no queue and no serialization, and two jobs in
flight at once are reachable. -/
theorem stop_always_spawns_new_job (a : AppState)
    (hrec : a.recorder.is_recording = true) (hne : a.recorder.frames ≠ []) :
    (a.stop_recording).inFlightJobs = a.inFlightJobs + 1 := by
  rw [AppState.stop_recording]
  simp only [RecorderState.stop, hrec, not_true_eq_false, if_false, if_neg hne]

/-- Witness for `stop_always_spawns_new_job` at a state that already has
one job in flight: stopping pushes the count to 2. -/
theorem stop_always_spawns_new_job_witness :
    ({ app_is_recording := true,
       recorder := { is_recording := true, frames := [[0]], hasStream := true,
                     current_level := 0 },
       inFlightJobs := 1, prev_hwnd := none } : AppState).recorder.is_recording = true ∧
    ({ app_is_recording := true,
       recorder := { is_recording := true, frames := [[0]], hasStream := true,
                     current_level := 0 },
       inFlightJobs := 1, prev_hwnd := none } : AppState).recorder.frames ≠ [] ∧
    (({ app_is_recording := true,
        recorder := { is_recording := true, frames := [[0]], hasStream := true,
                      current_level := 0 },
        inFlightJobs := 1, prev_hwnd := none } : AppState).stop_recording).inFlightJobs
      = 1 + 1 :=
  ⟨rfl, by simp,
   stop_always_spawns_new_job
     { app_is_recording := true,
       recorder := { is_recording := true, frames := [[0]], hasStream := true,
                     current_level := 0 },
       inFlightJobs := 1, prev_hwnd := none } rfl (by simp)⟩

/-- C9: after a successful injection (auto-paste on, non-empty text), the
system clipboard holds the injected text; the previous clipboard content
is read (returned as the second component, the local `old_clip`) but never
written back, so injection permanently replaces the previous clipboard
contents. -/
theorem inject_overwrites_clipboard (text : String) (prev : Option Int)
    (os : OSState) (h : text ≠ "") :
    ((injectText text true prev os).1.clipboard = text) ∧
    ((injectText text true prev os).2 = some os.clipboard) := by
  have he : text.isEmpty = false := by
    rw [Bool.eq_false_iff]
    intro hc
    exact h ((String.isEmpty_iff text).mp hc)
  have hb : (!text.isEmpty && true) = true := by
    rw [he]
    rfl
  rw [injectText, if_pos hb]
  cases prev <;> exact ⟨rfl, rfl⟩

/-- Witness for `inject_overwrites_clipboard`: injecting "hello" over a
clipboard holding "old" leaves "hello" there and the old value unread
back. -/
theorem inject_overwrites_clipboard_witness :
    ("hello" : String) ≠ "" ∧
    (((injectText "hello" true (some 7)
        { clipboard := "old", foreground := some 3 }).1.clipboard = "hello") ∧
      ((injectText "hello" true (some 7)
        { clipboard := "old", foreground := some 3 }).2
          = some ({ clipboard := "old", foreground := some 3 } : OSState).clipboard)) :=
  ⟨by decide,
   inject_overwrites_clipboard "hello" (some 7)
     { clipboard := "old", foreground := some 3 } (by decide)⟩

end VoiceAssistant
